import Mathlib

/-!
Verification of `session_fernet_asgi.py`: an ASGI middleware that keeps a
per-request session dictionary in an encrypted, authenticated Fernet cookie.

Shallow embedding conventions:

* Python exceptions are the inductive `PyExc`; fallible code returns
  `Except PyExc _`.
* Python dict objects are `PyDict σ`: an allocation address plus contents, so
  that object identity (the freshness of `dict.copy()`) is expressible.  The
  address of a dict allocated during a call is passed in explicitly as a
  `fresh : Nat` parameter standing for the allocator.
* The external `cryptography.fernet.Fernet` primitive (assumed correct by the
  project) is modelled symbolically: a well-formed token records the
  encrypting key, the embedded timestamp, the random IV and the plaintext;
  `Fernet.decrypt` performs the library's documented checks, in particular
  the ttl test `timestamp + ttl < current_time` and the 60-second
  clock-skew test, and authentication succeeds exactly for the matching key.
* The `http.cookies.SimpleCookie` rendering used by `_set_cookie` is embedded
  down to the character level (`_quote`, the legal-character set, attribute
  output in sorted key order, flag attributes).  The trailing
  `.encode("latin-1")` step is not modelled: the header is kept as a `String`.
* The pluggable `encode_data` / `decode_data` pair stays abstract (JSON
  serialization correctness is an external collaborator), as functions
  `σ → Except PyExc Bytes` and `Bytes → Except PyExc σ`.
-/

/-- Byte strings, as lists of byte values. -/
abbrev Bytes := List Nat

/-- The Python exceptions arising in `session_fernet_asgi`:
the four caught at line 132 of the source, the `AssertionError` of
`_set_cookie`'s same-site check, `http.cookies.CookieError`, and arbitrary
other exceptions (e.g. from a pluggable codec), tagged by class name. -/
inductive PyExc where
  | keyError
  | invalidToken
  | jsonDecodeError
  | unicodeDecodeError
  | assertionError
  | cookieError
  | other (name : String)
deriving DecidableEq, Repr

/-- A Python dict object: allocation address plus contents.  Two dicts with
equal contents at different addresses are distinct objects. -/
structure PyDict (σ : Type) where
  addr : Nat
  val : σ
deriving DecidableEq, Repr

variable {σ : Type}

/-- Model of `dict.copy()`: a newly allocated dict (at the allocator-supplied fresh
address) holding the same contents. -/
def PyDict.copy (d : PyDict σ) (fresh : Nat) : PyDict σ :=
  { addr := fresh, val := d.val }

/-- Alias `Seconds = int` (source line 32). -/
abbrev Seconds := Int

/-- The frozen `CookieConfiguration` dataclass (source lines 35-45), defaults
included.  The dataclass performs no validation of any field. -/
structure CookieConfiguration where
  name : String := "session"
  max_age : Seconds := 24 * 60 * 60
  same_site : String := "lax"
  domain : Option String := none
  path : String := "/"
  httponly : Bool := true
  secure : Bool := false
deriving DecidableEq, Repr

/-- A well-formed Fernet token, symbolically: the key it was encrypted under,
the embedded creation timestamp, the random IV, and the plaintext payload. -/
structure FernetToken where
  key : Nat
  timestamp : Int
  iv : Nat
  payload : Bytes
deriving DecidableEq, Repr

/-- A cookie value on the wire: either the text of a well-formed Fernet token
or garbage text (anything that fails parsing or HMAC verification under every
key: malformed base64, truncated data, a tampered token, ...). -/
inductive TokenWire where
  | token (t : FernetToken)
  | garbage (s : String)
deriving DecidableEq, Repr

/-- Constant `_MAX_CLOCK_SKEW` of `cryptography.fernet`. -/
def _MAX_CLOCK_SKEW : Int := 60

/-- Model of `Fernet.encrypt`: records key, current time, the drawn IV and the data. -/
def Fernet.encrypt (key : Nat) (data : Bytes) (current_time : Int) (iv : Nat) :
    FernetToken :=
  { key := key, timestamp := current_time, iv := iv, payload := data }

/-- Model of `Fernet.decrypt(token, ttl)` as the library defines it: garbage never
verifies; for a well-formed token the ttl check `timestamp + ttl <
current_time` and the clock-skew check `current_time + 60 < timestamp` run
first (when a ttl is given), then HMAC verification, which succeeds exactly
when the token was produced under the same key.  Every failure is
`InvalidToken`. -/
def Fernet.decrypt (key : Nat) (tok : TokenWire) (ttl : Option Int)
    (current_time : Int) : Except PyExc Bytes :=
  match tok with
  | .garbage _ => .error .invalidToken
  | .token t =>
    match ttl with
    | some ttl =>
      if t.timestamp + ttl < current_time then .error .invalidToken
      else if current_time + _MAX_CLOCK_SKEW < t.timestamp then .error .invalidToken
      else if t.key = key then .ok t.payload
      else .error .invalidToken
    | none =>
      if t.key = key then .ok t.payload
      else .error .invalidToken

/-- The legal cookie characters of `http.cookies._LegalChars`: ASCII letters,
digits, and `!#$%&'*+-.^_\x60|~:` (codes 39 and 96 written numerically). -/
def isLegalChar (c : Char) : Bool :=
  c.isAlpha || c.isDigit || "!#$%&*+-.^_|~:".toList.contains c ||
    c == Char.ofNat 39 || c == Char.ofNat 96

/-- Model of `http.cookies._is_legal_key`: a nonempty string of legal characters. -/
def _is_legal_key (s : String) : Bool :=
  s != "" && s.toList.all isLegalChar

/-- Membership in `http.cookies._UnescapedChars`: the legal characters plus
` ()/<=>?@[]\x7b\x7d`. -/
def isUnescapedChar (c : Char) : Bool :=
  isLegalChar c || " ()/<=>?@[]\x7b\x7d".toList.contains c

/-- Three-digit octal rendering of a byte, as in Python's `'\\%03o' % n`. -/
def octal3 (n : Nat) : String :=
  String.mk [Char.ofNat (48 + n / 64 % 8), Char.ofNat (48 + n / 8 % 8),
    Char.ofNat (48 + n % 8)]

/-- Table `http.cookies._Translator` applied to one character: `"` and `\` get a
backslash escape, unescaped characters map to themselves, other bytes below
256 become `\ooo`, and characters above 255 are untouched by `translate`. -/
def _translate_char (c : Char) : String :=
  if c.toNat ≥ 256 then String.singleton c
  else if c == Char.ofNat 34 then String.mk [Char.ofNat 92, Char.ofNat 34]
  else if c == Char.ofNat 92 then String.mk [Char.ofNat 92, Char.ofNat 92]
  else if isUnescapedChar c then String.singleton c
  else String.singleton (Char.ofNat 92) ++ octal3 c.toNat

/-- Model of `http.cookies._quote`: a legal value passes through; anything else is
wrapped in double quotes with `_Translator` applied. -/
def _quote (s : String) : String :=
  if _is_legal_key s then s
  else String.singleton (Char.ofNat 34) ++ String.join (s.toList.map _translate_char)
    ++ String.singleton (Char.ofNat 34)

/-- Python's `str.lower()` as the cookie machinery uses it (the values
compared are ASCII attribute names and same-site tokens). -/
def pyLower (s : String) : String :=
  ⟨s.data.map Char.toLower⟩

/-- The `Morsel._reserved` keys after the module's monkey-patch adds
`samesite` (source line 13). -/
def reservedCookieKeys : List String :=
  ["expires", "path", "comment", "domain", "max-age", "secure", "httponly",
    "version", "samesite"]

/-- The same-site assertion of `_set_cookie` (source lines 86-90):
`samesite.lower()` must be strict, lax or none. -/
def validSameSite (ss : String) : Bool :=
  ["strict", "lax", "none"].contains (pyLower ss)

/-- The attribute list `Morsel.OutputString` produces for the attributes
`_set_cookie` sets: iteration is over `sorted(self.items())`, so the order is
domain, httponly, max-age, path, samesite, secure; attributes whose stored
value is the empty string are skipped; `secure` and `httponly` are flag
attributes rendered as their bare display names. -/
def morselAttrs (max_age : Option Int) (path : Option String)
    (domain : Option String) (secure : Bool) (httponly : Bool)
    (samesite : Option String) : List String :=
  (match domain with
   | some d => if d = "" then [] else ["Domain=" ++ d]
   | none => []) ++
  (if httponly then ["HttpOnly"] else []) ++
  (match max_age with
   | some m => ["Max-Age=" ++ toString m]
   | none => []) ++
  (match path with
   | some p => if p = "" then [] else ["Path=" ++ p]
   | none => []) ++
  (match samesite with
   | some ss => if ss = "" then [] else ["SameSite=" ++ ss]
   | none => []) ++
  (if secure then ["Secure"] else [])

/-- Python's `'; '.join`, the `_semispacejoin` of `http.cookies`. -/
def _semispacejoin : List String → String
  | [] => ""
  | [a] => a
  | a :: rest => a ++ "; " ++ _semispacejoin rest

/-- The header value `_set_cookie` builds (source lines 59-92): storing the
morsel raises `CookieError` for a reserved or illegal cookie name; the
same-site assertion raises `AssertionError` when the value (if given) is not
strict/lax/none; otherwise the output is `<key>=<quoted value>` followed by
the sorted attributes, joined by "; " (the leading header space is
stripped). -/
def _set_cookie_header (key : String) (value : String) (max_age : Option Int)
    (path : Option String) (domain : Option String) (secure : Bool)
    (httponly : Bool) (samesite : Option String) : Except PyExc String :=
  if reservedCookieKeys.contains (pyLower key) then .error .cookieError
  else if !_is_legal_key key then .error .cookieError
  else if (match samesite with
           | some ss => !validSameSite ss
           | none => false) then .error .assertionError
  else .ok (_semispacejoin
    ((key ++ "=" ++ _quote value) :: morselAttrs max_age path domain secure httponly samesite))

/-- A starlette response, reduced to its raw header list. -/
structure Response where
  raw_headers : List (String × String)
deriving DecidableEq, Repr

/-- Model of `_set_cookie` (source lines 59-93): build the header value and append it
to the response's raw headers under `set-cookie`. -/
def _set_cookie (response : Response) (key : String) (value : String)
    (max_age : Option Int) (path : Option String) (domain : Option String)
    (secure : Bool) (httponly : Bool) (samesite : Option String) :
    Except PyExc Response :=
  match _set_cookie_header key value max_age path domain secure httponly samesite with
  | .ok h => .ok { raw_headers := response.raw_headers ++ [("set-cookie", h)] }
  | .error e => .error e

/-- A starlette request, reduced to what the middleware touches: the parsed
cookie mapping, and the `scope["session"]` slot. -/
structure Request (σ : Type) where
  cookies : List (String × TokenWire)
  session : Option (PyDict σ) := none

/-- The middleware's state after construction (source lines 107-122). -/
structure SessionMiddleware (σ : Type) where
  secret_key : Nat
  cookie_config : CookieConfiguration
  default_value : PyDict σ
  encode_data : σ → Except PyExc Bytes
  decode_data : Bytes → Except PyExc σ

/-- Model of `SessionMiddleware.__init__`: stores its arguments and builds the Fernet
instance.  Its only fallible step is `Fernet(secret_key)`'s base64/length
validation of the key, which the symbolic key model absorbs; it performs no
validation whatsoever of `cookie_config` (in particular none of
`same_site`). -/
def SessionMiddleware.init (secret_key : Nat)
    (cookie_config : CookieConfiguration) (default_value : PyDict σ)
    (encode_data : σ → Except PyExc Bytes)
    (decode_data : Bytes → Except PyExc σ) :
    Except PyExc (SessionMiddleware σ) :=
  .ok { secret_key := secret_key, cookie_config := cookie_config,
        default_value := default_value, encode_data := encode_data,
        decode_data := decode_data }

/-- The try-block of `_load` (source lines 126-131): look up the cookie
(`KeyError` when absent), Fernet-decrypt it with `ttl = max_age`, and run
`decode_data` on the plaintext. -/
def SessionMiddleware.load_try (mw : SessionMiddleware σ) (req : Request σ)
    (now : Int) : Except PyExc σ :=
  match req.cookies.lookup mw.cookie_config.name with
  | none => .error .keyError
  | some w =>
    match Fernet.decrypt mw.secret_key w (some mw.cookie_config.max_age) now with
    | .error e => .error e
    | .ok bytes => mw.decode_data bytes

/-- Model of `_load` (source lines 124-133): the try-block's result, except that
`KeyError`, `InvalidToken`, `json.JSONDecodeError` and `UnicodeDecodeError`
are replaced by `self.default_value.copy()`; any other exception propagates.
On success the dict built by `decode_data` is itself a fresh allocation. -/
def SessionMiddleware._load (mw : SessionMiddleware σ) (req : Request σ)
    (now : Int) (fresh : Nat) : Except PyExc (PyDict σ) :=
  match mw.load_try req now with
  | .ok v => .ok { addr := fresh, val := v }
  | .error .keyError => .ok (mw.default_value.copy fresh)
  | .error .invalidToken => .ok (mw.default_value.copy fresh)
  | .error .jsonDecodeError => .ok (mw.default_value.copy fresh)
  | .error .unicodeDecodeError => .ok (mw.default_value.copy fresh)
  | .error e => .error e

/-- Model of `_dump` (source lines 135-136): `encode_data` then `Fernet.encrypt` with
a fresh random IV; no exception is caught. -/
def SessionMiddleware._dump (mw : SessionMiddleware σ) (data : σ) (now : Int)
    (iv : Nat) : Except PyExc TokenWire :=
  match mw.encode_data data with
  | .ok b => .ok (.token (Fernet.encrypt mw.secret_key b now iv))
  | .error e => .error e

/-- Model of `dispatch` (source lines 138-153): load the session into
`scope["session"]`, run `call_next` on the request (the handler may mutate
the session object's contents, returned as the second component), `_dump`
the mutated contents and append the `Set-Cookie` header via `_set_cookie`.
`tokenText` is the base64 text of the wire token (`.decode("utf-8")` of the
bytes `Fernet.encrypt` returned). -/
def SessionMiddleware.dispatch (mw : SessionMiddleware σ) (req : Request σ)
    (call_next : Request σ → Except PyExc (Response × σ)) (now : Int)
    (iv : Nat) (fresh : Nat) (tokenText : TokenWire → String) :
    Except PyExc Response :=
  match mw._load req now fresh with
  | .error e => .error e
  | .ok sess =>
    match call_next { req with session := some sess } with
    | .error e => .error e
    | .ok (response, finalSession) =>
      match mw._dump finalSession now iv with
      | .error e => .error e
      | .ok tok =>
        _set_cookie response mw.cookie_config.name (tokenText tok)
          (some mw.cookie_config.max_age) (some mw.cookie_config.path)
          mw.cookie_config.domain mw.cookie_config.secure
          mw.cookie_config.httponly (some mw.cookie_config.same_site)

instance {ε α : Type} [DecidableEq ε] [DecidableEq α] : DecidableEq (Except ε α)
  | .ok x, .ok y =>
    if h : x = y then .isTrue (congrArg Except.ok h)
    else .isFalse (fun hc => h (Except.ok.inj hc))
  | .error x, .error y =>
    if h : x = y then .isTrue (congrArg Except.error h)
    else .isFalse (fun hc => h (Except.error.inj hc))
  | .ok _, .error _ => .isFalse (fun hc => Except.noConfusion hc)
  | .error _, .ok _ => .isFalse (fun hc => Except.noConfusion hc)

/-- The capitalization the spec's wire-format line uses for the SameSite
value: `Strict`, `Lax` or `None`. -/
def specSameSiteText (ss : String) : String :=
  if pyLower ss = "strict" then "Strict"
  else if pyLower ss = "lax" then "Lax"
  else "None"

/-- The `Set-Cookie` value exactly as the spec's External Interfaces section
writes it: `<name>=<token>; Max-Age=<seconds>; Path=<path>[; Domain=<domain>]
[; Secure][; HttpOnly]; SameSite=<Strict|Lax|None>`.  Defined from the spec's
words, to be compared with `_set_cookie_header`. -/
def specCookieHeaderFormat (name : String) (token : String) (max_age : Seconds)
    (path : String) (domain : Option String) (secure : Bool) (httponly : Bool)
    (same_site : String) : String :=
  name ++ "=" ++ token ++ "; Max-Age=" ++ toString max_age ++ "; Path=" ++ path ++
  (match domain with
   | some d => "; Domain=" ++ d
   | none => "") ++
  (if secure then "; Secure" else "") ++
  (if httponly then "; HttpOnly" else "") ++
  "; SameSite=" ++ specSameSiteText same_site

/-- The `Set-Cookie` value as the code actually produces it: the token quoted
per `http.cookies` rules, the attributes in alphabetical order of their
cookie attribute names (Domain, HttpOnly, Max-Age, Path, SameSite, Secure),
empty-string attribute values skipped, and the SameSite value rendered
verbatim as configured. -/
def amendedCookieHeaderFormat (name : String) (token : String)
    (max_age : Seconds) (path : String) (domain : Option String)
    (secure : Bool) (httponly : Bool) (same_site : String) : String :=
  name ++ "=" ++ _quote token ++
  (match domain with
   | some d => if d = "" then "" else "; " ++ "Domain=" ++ d
   | none => "") ++
  (if httponly then "; " ++ "HttpOnly" else "") ++
  "; " ++ "Max-Age=" ++ toString max_age ++
  (if path = "" then "" else "; " ++ "Path=" ++ path) ++
  "; " ++ "SameSite=" ++ same_site ++
  (if secure then "; " ++ "Secure" else "")

/-- A concrete serializer for sessions holding a single number (the `value`
entry of the repository's tests): used to instantiate witnesses. -/
def natEncode (n : Nat) : Except PyExc Bytes := .ok [n]

/-- The matching deserializer; anything but a one-byte payload is a
`json.JSONDecodeError`. -/
def natDecode : Bytes → Except PyExc Nat
  | [n] => .ok n
  | _ => .error .jsonDecodeError

/-- A pluggable decoder that always raises an exception outside the absorbed
set (a bare `ValueError`). -/
def rejectDecode : Bytes → Except PyExc Nat :=
  fun _ => .error (.other "ValueError")

/-- A pluggable encoder that always raises, as `json.dumps` does on a
non-serializable value (a `TypeError`). -/
def failEncode : Nat → Except PyExc Bytes :=
  fun _ => .error (.other "TypeError")

/-- A concrete middleware: key 7, default cookie configuration, default
session `{"value": 0}` allocated at address 1. -/
def mwTest : SessionMiddleware Nat :=
  { secret_key := 7,
    cookie_config := {},
    default_value := { addr := 1, val := 0 },
    encode_data := natEncode,
    decode_data := natDecode }

/-- Fixture `mwTest` with the always-raising decoder. -/
def mwReject : SessionMiddleware Nat :=
  { mwTest with decode_data := rejectDecode }

/-- Fixture `mwTest` with the always-raising encoder. -/
def mwFailEncode : SessionMiddleware Nat :=
  { mwTest with encode_data := failEncode }

/-- Fixture `mwTest` with `max_age = 0`, the configuration of the repository's
`test_middleware_expired`. -/
def mwZero : SessionMiddleware Nat :=
  { mwTest with cookie_config := { max_age := 0 } }

/-- A cookie configuration whose same-site value is outside the three
recognized tokens. -/
def badSameSiteConfig : CookieConfiguration :=
  { same_site := "evil" }

/-- Fixture `mwTest` reconfigured with the invalid same-site value. -/
def mwBadSameSite : SessionMiddleware Nat :=
  { mwTest with cookie_config := badSameSiteConfig }

/-- A stand-in for the base64 text of a wire token, where the claims do not
depend on the text itself. -/
def tokenTextAbs : TokenWire → String :=
  fun _ => "token"

/-- Helper: `_dump` of a serializable session is the Fernet token over the
encoded bytes. -/
theorem dump_ok (mw : SessionMiddleware σ) (S : σ) (b : Bytes) (now : Int)
    (iv : Nat) (henc : mw.encode_data S = .ok b) :
    mw._dump S now iv = .ok (.token (Fernet.encrypt mw.secret_key b now iv)) := by
  unfold SessionMiddleware._dump
  rw [henc]

/-- Helper: `_load` replaces each of the four caught exception classes by a
fresh copy of the default session. -/
theorem load_absorbs (mw : SessionMiddleware σ) (req : Request σ) (now : Int)
    (fresh : Nat) (e : PyExc)
    (he : e = .keyError ∨ e = .invalidToken ∨ e = .jsonDecodeError ∨
      e = .unicodeDecodeError)
    (h : mw.load_try req now = .error e) :
    mw._load req now fresh = .ok (mw.default_value.copy fresh) := by
  unfold SessionMiddleware._load
  rw [h]
  rcases he with rfl | rfl | rfl | rfl <;> rfl

/-- Helper: `_load` propagates every exception outside the caught set. -/
theorem load_propagates (mw : SessionMiddleware σ) (req : Request σ)
    (now : Int) (fresh : Nat) (e : PyExc)
    (he : ¬(e = .keyError ∨ e = .invalidToken ∨ e = .jsonDecodeError ∨
      e = .unicodeDecodeError))
    (h : mw.load_try req now = .error e) :
    mw._load req now fresh = .error e := by
  unfold SessionMiddleware._load
  rw [h]
  cases e with
  | keyError => exact absurd (Or.inl rfl) he
  | invalidToken => exact absurd (Or.inr (Or.inl rfl)) he
  | jsonDecodeError => exact absurd (Or.inr (Or.inr (Or.inl rfl))) he
  | unicodeDecodeError => exact absurd (Or.inr (Or.inr (Or.inr rfl))) he
  | assertionError => rfl
  | cookieError => rfl
  | other n => rfl

/-- Helper: decryption of a well-formed token fails whenever the key
differs, whatever the times. -/
theorem decrypt_wrong_key (key : Nat) (t : FernetToken) (ttl : Option Int)
    (now : Int) (hk : t.key ≠ key) :
    Fernet.decrypt key (.token t) ttl now = .error .invalidToken := by
  cases ttl with
  | none => simp [Fernet.decrypt, hk]
  | some m =>
    by_cases h1 : t.timestamp + m < now
    · simp [Fernet.decrypt, h1]
    · by_cases h2 : now + _MAX_CLOCK_SKEW < t.timestamp
      · simp [Fernet.decrypt, h1, h2]
      · simp [Fernet.decrypt, h1, h2, hk]

/-- Helper: decryption fails when the embedded timestamp has aged past the
ttl. -/
theorem decrypt_expired (key : Nat) (t : FernetToken) (m now : Int)
    (hexp : t.timestamp + m < now) :
    Fernet.decrypt key (.token t) (some m) now = .error .invalidToken := by
  simp [Fernet.decrypt, hexp]

/-- Helper: decryption under the producing key succeeds inside the ttl
window and the clock-skew bound. -/
theorem decrypt_fresh (key : Nat) (t : FernetToken) (m now : Int)
    (hwin : now ≤ t.timestamp + m) (hskew : t.timestamp ≤ now + _MAX_CLOCK_SKEW)
    (hk : t.key = key) :
    Fernet.decrypt key (.token t) (some m) now = .ok t.payload := by
  simp [Fernet.decrypt, not_lt.mpr hwin, not_lt.mpr hskew, hk]

/-- C3: for every request whose session cookie is absent, malformed garbage,
encrypted under a different key, expired, or whose decrypted payload the
configured decoder rejects with a JSON or unicode error, `_load` returns a
fresh copy of the configured default session: equal contents, distinct
object, at whatever address the allocator hands this call. -/
theorem claim3_default_substitution (mw : SessionMiddleware σ)
    (req : Request σ) (now : Int) (fresh : Nat)
    (hfail :
      req.cookies.lookup mw.cookie_config.name = none ∨
      (∃ s, req.cookies.lookup mw.cookie_config.name = some (.garbage s)) ∨
      (∃ t, req.cookies.lookup mw.cookie_config.name = some (.token t) ∧
        t.key ≠ mw.secret_key) ∨
      (∃ t, req.cookies.lookup mw.cookie_config.name = some (.token t) ∧
        t.timestamp + mw.cookie_config.max_age < now) ∨
      (∃ w b, req.cookies.lookup mw.cookie_config.name = some w ∧
        Fernet.decrypt mw.secret_key w (some mw.cookie_config.max_age) now
          = .ok b ∧
        (mw.decode_data b = .error .jsonDecodeError ∨
         mw.decode_data b = .error .unicodeDecodeError)))
    (hfresh : fresh ≠ mw.default_value.addr) :
    mw._load req now fresh = .ok (mw.default_value.copy fresh) ∧
    (mw.default_value.copy fresh).val = mw.default_value.val ∧
    mw.default_value.copy fresh ≠ mw.default_value := by
  refine ⟨?_, rfl, ?_⟩
  · rcases hfail with h | ⟨s, h⟩ | ⟨t, h, hk⟩ | ⟨t, h, hexp⟩ | ⟨w, b, h, hd, hde⟩
    · apply load_absorbs mw req now fresh .keyError (Or.inl rfl)
      simp only [SessionMiddleware.load_try, h]
    · apply load_absorbs mw req now fresh .invalidToken (Or.inr (Or.inl rfl))
      simp only [SessionMiddleware.load_try, h, Fernet.decrypt]
    · apply load_absorbs mw req now fresh .invalidToken (Or.inr (Or.inl rfl))
      simp only [SessionMiddleware.load_try, h,
        decrypt_wrong_key mw.secret_key t (some mw.cookie_config.max_age) now hk]
    · apply load_absorbs mw req now fresh .invalidToken (Or.inr (Or.inl rfl))
      simp only [SessionMiddleware.load_try, h,
        decrypt_expired mw.secret_key t mw.cookie_config.max_age now hexp]
    · rcases hde with hde | hde
      · apply load_absorbs mw req now fresh .jsonDecodeError
          (Or.inr (Or.inr (Or.inl rfl)))
        simp only [SessionMiddleware.load_try, h, hd, hde]
      · apply load_absorbs mw req now fresh .unicodeDecodeError
          (Or.inr (Or.inr (Or.inr rfl)))
        simp only [SessionMiddleware.load_try, h, hd, hde]
  · intro hEq
    exact hfresh (congrArg PyDict.addr hEq)

/-- C3 witness: an absent cookie yields a fresh copy of the default. -/
theorem claim3_default_substitution_witness :
    mwTest._load { cookies := [] } 0 5 = .ok (mwTest.default_value.copy 5) ∧
    (mwTest.default_value.copy 5).val = mwTest.default_value.val ∧
    mwTest.default_value.copy 5 ≠ mwTest.default_value :=
  claim3_default_substitution mwTest { cookies := [] } 0 5 (Or.inl rfl)
    (by decide)

/-- C7: two `_dump` calls on the same session data drawing distinct fresh
IVs produce distinct tokens. -/
theorem claim7_nondeterminism (mw : SessionMiddleware σ) (S : σ) (b : Bytes)
    (t1 t2 : Int) (iv1 iv2 : Nat) (henc : mw.encode_data S = .ok b)
    (hiv : iv1 ≠ iv2) :
    mw._dump S t1 iv1 ≠ mw._dump S t2 iv2 := by
  rw [dump_ok mw S b t1 iv1 henc, dump_ok mw S b t2 iv2 henc]
  intro h
  apply hiv
  exact congrArg FernetToken.iv (TokenWire.token.inj (Except.ok.inj h))

/-- C7 witness: concrete distinct IVs give distinct tokens. -/
theorem claim7_nondeterminism_witness :
    mwTest._dump 42 1000 0 ≠ mwTest._dump 42 1000 1 :=
  claim7_nondeterminism mwTest 42 [42] 1000 1000 0 1 rfl (by decide)

/-- C8: when `encode_data` raises, `_dump` raises the same exception and so
does `dispatch` (no catching, swallowing or default substitution); when
`encode_data` succeeds, `_dump` never fails and returns the encrypted
token. -/
theorem claim8_encode_failure (mw : SessionMiddleware σ) (S : σ) (now : Int)
    (iv : Nat) :
    (∀ e, mw.encode_data S = .error e →
      mw._dump S now iv = .error e ∧
      ∀ (req : Request σ)
        (call_next : Request σ → Except PyExc (Response × σ))
        (fresh : Nat) (tt : TokenWire → String) (d : PyDict σ)
        (resp : Response),
        mw._load req now fresh = .ok d →
        call_next { req with session := some d } = .ok (resp, S) →
        mw.dispatch req call_next now iv fresh tt = .error e) ∧
    (∀ b, mw.encode_data S = .ok b →
      mw._dump S now iv = .ok (.token (Fernet.encrypt mw.secret_key b now iv))) := by
  constructor
  · intro e he
    have hdump : mw._dump S now iv = .error e := by
      unfold SessionMiddleware._dump
      rw [he]
    refine ⟨hdump, ?_⟩
    intro req call_next fresh tt d resp hload hnext
    simp only [SessionMiddleware.dispatch, hload, hnext, hdump]
  · intro b hb
    exact dump_ok mw S b now iv hb

/-- C8 witness: a raising encoder propagates `TypeError` through `_dump`
and `dispatch`; the plain encoder never fails. -/
theorem claim8_encode_failure_witness :
    mwFailEncode._dump 0 1000 5 = .error (.other "TypeError") ∧
    mwFailEncode.dispatch { cookies := [] }
      (fun _ => .ok ({ raw_headers := [] }, 0)) 1000 5 2 tokenTextAbs
      = .error (.other "TypeError") ∧
    mwTest._dump 42 1000 5
      = .ok (.token (Fernet.encrypt mwTest.secret_key [42] 1000 5)) :=
  ⟨((claim8_encode_failure mwFailEncode 0 1000 5).1 (.other "TypeError") rfl).1,
   ((claim8_encode_failure mwFailEncode 0 1000 5).1 (.other "TypeError") rfl).2
     { cookies := [] } (fun _ => .ok ({ raw_headers := [] }, 0)) 2
     tokenTextAbs (mwFailEncode.default_value.copy 2) { raw_headers := [] }
     rfl rfl,
   (claim8_encode_failure mwTest 42 1000 5).2 [42] rfl⟩

/-- C9: when the downstream `call_next` raises before producing a response,
`dispatch` appends no Set-Cookie header and propagates that exception
unchanged. -/
theorem claim9_downstream_failure (mw : SessionMiddleware σ)
    (req : Request σ) (call_next : Request σ → Except PyExc (Response × σ))
    (now : Int) (iv : Nat) (fresh : Nat) (tt : TokenWire → String)
    (d : PyDict σ) (e : PyExc)
    (hload : mw._load req now fresh = .ok d)
    (hnext : call_next { req with session := some d } = .error e) :
    mw.dispatch req call_next now iv fresh tt = .error e := by
  simp only [SessionMiddleware.dispatch, hload, hnext]

/-- C9 witness: a raising downstream handler propagates its exception. -/
theorem claim9_downstream_failure_witness :
    mwTest.dispatch { cookies := [] }
      (fun _ => .error (.other "RuntimeError")) 1000 5 2 tokenTextAbs
      = .error (.other "RuntimeError") :=
  claim9_downstream_failure mwTest { cookies := [] }
    (fun _ => .error (.other "RuntimeError")) 1000 5 2 tokenTextAbs
    (mwTest.default_value.copy 2) (.other "RuntimeError") rfl rfl

/-- C10: `_load` substitutes a fresh copy of the default session exactly for
the four exception classes `KeyError`, `InvalidToken`, `json.JSONDecodeError`
and `UnicodeDecodeError`; any other exception raised inside the try-block
(e.g. by a custom pluggable decoder) propagates out unchanged. -/
theorem claim10_absorbed_set (mw : SessionMiddleware σ) (req : Request σ)
    (now : Int) (fresh : Nat) :
    (∀ e, (e = PyExc.keyError ∨ e = PyExc.invalidToken ∨
        e = PyExc.jsonDecodeError ∨ e = PyExc.unicodeDecodeError) →
      mw.load_try req now = .error e →
      mw._load req now fresh = .ok (mw.default_value.copy fresh)) ∧
    (∀ e, ¬(e = PyExc.keyError ∨ e = PyExc.invalidToken ∨
        e = PyExc.jsonDecodeError ∨ e = PyExc.unicodeDecodeError) →
      mw.load_try req now = .error e →
      mw._load req now fresh = .error e) :=
  ⟨fun e he h => load_absorbs mw req now fresh e he h,
   fun e he h => load_propagates mw req now fresh e he h⟩

/-- C10 witness: a custom decoder's `ValueError` propagates out of `_load`,
while an absent cookie (a `KeyError`) is absorbed into a default copy. -/
theorem claim10_absorbed_set_witness :
    mwReject._load
      { cookies := [("session",
          TokenWire.token { key := 7, timestamp := 0, iv := 0, payload := [1] })] }
      0 5 = .error (.other "ValueError") ∧
    mwReject._load { cookies := [] } 0 5
      = .ok (mwReject.default_value.copy 5) :=
  ⟨(claim10_absorbed_set mwReject
      { cookies := [("session",
          TokenWire.token { key := 7, timestamp := 0, iv := 0, payload := [1] })] }
      0 5).2 (.other "ValueError") (by decide) rfl,
   (claim10_absorbed_set mwReject { cookies := [] } 0 5).1 .keyError
     (Or.inl rfl) rfl⟩

/-- C1: round-trip — decoding, with the same key and inside an unexpired
max-age window, the token `_dump` produced for a session whose configured
codec round-trips, returns a dictionary equal to that session. -/
theorem claim1_round_trip (mw : SessionMiddleware σ) (S : σ) (b : Bytes)
    (req : Request σ) (tEnc now : Int) (iv fresh : Nat) (w : TokenWire)
    (henc : mw.encode_data S = .ok b) (hdec : mw.decode_data b = .ok S)
    (hdump : mw._dump S tEnc iv = .ok w)
    (hcookie : req.cookies.lookup mw.cookie_config.name = some w)
    (horder : tEnc ≤ now)
    (hwin : now ≤ tEnc + mw.cookie_config.max_age) :
    mw._load req now fresh = .ok { addr := fresh, val := S } := by
  have hw : TokenWire.token (Fernet.encrypt mw.secret_key b tEnc iv) = w :=
    Except.ok.inj ((dump_ok mw S b tEnc iv henc).symm.trans hdump)
  subst hw
  have hskew : (Fernet.encrypt mw.secret_key b tEnc iv).timestamp
      ≤ now + _MAX_CLOCK_SKEW := by
    simp only [Fernet.encrypt]
    have h60 : _MAX_CLOCK_SKEW = 60 := rfl
    omega
  have hdecr := decrypt_fresh mw.secret_key
    (Fernet.encrypt mw.secret_key b tEnc iv) mw.cookie_config.max_age now
    hwin hskew rfl
  have hpay : (Fernet.encrypt mw.secret_key b tEnc iv).payload = b := rfl
  simp only [SessionMiddleware._load, SessionMiddleware.load_try, hcookie,
    hdecr, hpay, hdec]

/-- C1 witness: a concrete dump-then-load round-trip inside the window. -/
theorem claim1_round_trip_witness :
    mwTest._load
      { cookies := [("session",
          TokenWire.token { key := 7, timestamp := 100, iv := 9, payload := [42] })] }
      150 4 = .ok { addr := 4, val := 42 } :=
  claim1_round_trip mwTest 42 [42]
    { cookies := [("session",
        TokenWire.token { key := 7, timestamp := 100, iv := 9, payload := [42] })] }
    100 150 9 4
    (TokenWire.token { key := 7, timestamp := 100, iv := 9, payload := [42] })
    rfl rfl rfl rfl (by decide) (by decide)

/-- C4: a token `_dump` produced at time `T` reports a decode failure at
`T + max_age + 1` (the default session is substituted), and decodes back to
the original session at `T + max_age - 1`. -/
theorem claim4_expiry_window (mw : SessionMiddleware σ) (S : σ) (b : Bytes)
    (req : Request σ) (T : Int) (iv fresh : Nat) (w : TokenWire)
    (henc : mw.encode_data S = .ok b) (hdec : mw.decode_data b = .ok S)
    (hdump : mw._dump S T iv = .ok w)
    (hcookie : req.cookies.lookup mw.cookie_config.name = some w)
    (hm : 0 ≤ mw.cookie_config.max_age) :
    (mw.load_try req (T + mw.cookie_config.max_age + 1)
        = .error .invalidToken ∧
     mw._load req (T + mw.cookie_config.max_age + 1) fresh
        = .ok (mw.default_value.copy fresh)) ∧
    mw._load req (T + mw.cookie_config.max_age - 1) fresh
      = .ok { addr := fresh, val := S } := by
  have hw : TokenWire.token (Fernet.encrypt mw.secret_key b T iv) = w :=
    Except.ok.inj ((dump_ok mw S b T iv henc).symm.trans hdump)
  subst hw
  have hexp : (Fernet.encrypt mw.secret_key b T iv).timestamp
      + mw.cookie_config.max_age < T + mw.cookie_config.max_age + 1 := by
    simp only [Fernet.encrypt]
    omega
  have htry : mw.load_try req (T + mw.cookie_config.max_age + 1)
      = .error .invalidToken := by
    simp only [SessionMiddleware.load_try, hcookie,
      decrypt_expired mw.secret_key (Fernet.encrypt mw.secret_key b T iv)
        mw.cookie_config.max_age (T + mw.cookie_config.max_age + 1) hexp]
  refine ⟨⟨htry, load_absorbs mw req (T + mw.cookie_config.max_age + 1) fresh
    .invalidToken (Or.inr (Or.inl rfl)) htry⟩, ?_⟩
  have hwin : T + mw.cookie_config.max_age - 1
      ≤ (Fernet.encrypt mw.secret_key b T iv).timestamp
        + mw.cookie_config.max_age := by
    simp only [Fernet.encrypt]
    omega
  have hskew : (Fernet.encrypt mw.secret_key b T iv).timestamp
      ≤ (T + mw.cookie_config.max_age - 1) + _MAX_CLOCK_SKEW := by
    have hts : (Fernet.encrypt mw.secret_key b T iv).timestamp = T := rfl
    have h60 : _MAX_CLOCK_SKEW = (60 : Int) := rfl
    have hm2 : (0 : Int) ≤ mw.cookie_config.max_age := hm
    rw [hts, h60]
    omega
  have hdecr := decrypt_fresh mw.secret_key
    (Fernet.encrypt mw.secret_key b T iv) mw.cookie_config.max_age
    (T + mw.cookie_config.max_age - 1) hwin hskew rfl
  have hpay : (Fernet.encrypt mw.secret_key b T iv).payload = b := rfl
  simp only [SessionMiddleware._load, SessionMiddleware.load_try, hcookie,
    hdecr, hpay, hdec]

/-- C4 witness: the concrete expiry window around a token dumped at second
1000 under the default 86400-second max-age. -/
theorem claim4_expiry_window_witness :
    (mwTest.load_try
        { cookies := [("session",
            TokenWire.token { key := 7, timestamp := 1000, iv := 9, payload := [42] })] }
        (1000 + mwTest.cookie_config.max_age + 1) = .error .invalidToken ∧
     mwTest._load
        { cookies := [("session",
            TokenWire.token { key := 7, timestamp := 1000, iv := 9, payload := [42] })] }
        (1000 + mwTest.cookie_config.max_age + 1) 4
        = .ok (mwTest.default_value.copy 4)) ∧
    mwTest._load
      { cookies := [("session",
          TokenWire.token { key := 7, timestamp := 1000, iv := 9, payload := [42] })] }
      (1000 + mwTest.cookie_config.max_age - 1) 4
      = .ok { addr := 4, val := 42 } :=
  claim4_expiry_window mwTest 42 [42]
    { cookies := [("session",
        TokenWire.token { key := 7, timestamp := 1000, iv := 9, payload := [42] })] }
    1000 9 4
    (TokenWire.token { key := 7, timestamp := 1000, iv := 9, payload := [42] })
    rfl rfl rfl rfl (by decide)

/-- C5 (the code evaluated at the failing input): with `max_age = 0`, a
token dumped at second `T = 1000` and loaded at the same second `now = 1000`
decodes successfully and yields the persisted session (value 120), not the
default (value 0) — Fernet's ttl check `timestamp + ttl < current_time` does
not fire when the current second equals the token's timestamp.  One second
later the same token is treated as expired, which is the behavior the claim
and the repository's `test_middleware_expired` expect at every instant. -/
theorem claim5_max_age_zero_same_second :
    mwZero._dump 120 1000 5
      = .ok (.token { key := 7, timestamp := 1000, iv := 5, payload := [120] }) ∧
    mwZero._load
      { cookies := [("session",
          TokenWire.token { key := 7, timestamp := 1000, iv := 5, payload := [120] })] }
      1000 3 = .ok { addr := 3, val := 120 } ∧
    mwZero.default_value.val = 0 ∧
    mwZero._load
      { cookies := [("session",
          TokenWire.token { key := 7, timestamp := 1000, iv := 5, payload := [120] })] }
      1001 3 = .ok (mwZero.default_value.copy 3) :=
  ⟨rfl, rfl, rfl, rfl⟩

/-- Helper: the empty string is a left identity of append. -/
theorem str_empty_append (s : String) : "" ++ s = s := rfl

/-- C2 counterexample: constructing the middleware over a configuration
whose same-site value is `"evil"` raises nothing, and the same-site
`AssertionError` is raised at request time by `dispatch` — refuting both
halves of the claim at this concrete input. -/
theorem claim2_counterexample :
    (SessionMiddleware.init 7 badSameSiteConfig
        { addr := 1, val := (0 : Nat) } natEncode natDecode).isOk = true ∧
    mwBadSameSite.dispatch { cookies := [] }
      (fun _ => .ok ({ raw_headers := [] }, 0)) 1000 5 2 tokenTextAbs
      = .error .assertionError :=
  ⟨rfl, rfl⟩

/-- C2 (amended): construction performs no same-site validation and always
succeeds, storing the configuration as given; for every same_site value
outside the three recognized tokens (case-insensitively), the configuration
error — an `AssertionError` — is raised at request time, when `_set_cookie`
serializes the response cookie. -/
theorem claim2_invalid_same_site_request_time (secret : Nat)
    (cfg : CookieConfiguration) (dv : PyDict σ)
    (enc : σ → Except PyExc Bytes) (dec : Bytes → Except PyExc σ)
    (value : String)
    (hss : validSameSite cfg.same_site = false)
    (hres : reservedCookieKeys.contains (pyLower cfg.name) = false)
    (hleg : _is_legal_key cfg.name = true) :
    SessionMiddleware.init secret cfg dv enc dec
      = .ok { secret_key := secret, cookie_config := cfg,
              default_value := dv, encode_data := enc, decode_data := dec } ∧
    _set_cookie_header cfg.name value (some cfg.max_age) (some cfg.path)
      cfg.domain cfg.secure cfg.httponly (some cfg.same_site)
      = .error .assertionError := by
  refine ⟨rfl, ?_⟩
  have hres2 : ¬ (pyLower cfg.name ∈ reservedCookieKeys) := by
    simpa using hres
  simp [_set_cookie_header, hres2, hleg, hss]

/-- C2 witness: the amended behavior at the concrete `"evil"` value. -/
theorem claim2_invalid_same_site_request_time_witness :
    SessionMiddleware.init 7 badSameSiteConfig
      { addr := 1, val := (0 : Nat) } natEncode natDecode
      = .ok { secret_key := 7, cookie_config := badSameSiteConfig,
              default_value := { addr := 1, val := 0 },
              encode_data := natEncode, decode_data := natDecode } ∧
    _set_cookie_header badSameSiteConfig.name "tok"
      (some badSameSiteConfig.max_age) (some badSameSiteConfig.path)
      badSameSiteConfig.domain badSameSiteConfig.secure
      badSameSiteConfig.httponly (some badSameSiteConfig.same_site)
      = .error .assertionError :=
  claim2_invalid_same_site_request_time 7 badSameSiteConfig
    { addr := 1, val := 0 } natEncode natDecode "tok" rfl rfl rfl

/-- C6 counterexample: at the default configuration with token text `tok`,
the header the code builds differs from the spec's claimed template — the
attributes come out in sorted (alphabetical) order and SameSite keeps its
configured lowercase spelling. -/
theorem claim6_counterexample :
    _set_cookie_header "session" "tok" (some 86400) (some "/") none false
      true (some "lax")
      = .ok "session=tok; HttpOnly; Max-Age=86400; Path=/; SameSite=lax" ∧
    "session=tok; HttpOnly; Max-Age=86400; Path=/; SameSite=lax"
      ≠ specCookieHeaderFormat "session" "tok" 86400 "/" none false true
          "lax" := by
  constructor
  · rfl
  · decide

/-- C6 (amended): for every configuration with a legal, non-reserved cookie
name and a valid same-site value, the header `_set_cookie` appends is
`<name>=<token quoted per http.cookies>` followed by the configured
attributes in alphabetical order — `[; Domain=<domain>][; HttpOnly];
Max-Age=<seconds>[; Path=<path>]; SameSite=<same_site verbatim>[; Secure]` —
with Domain/Secure/HttpOnly present exactly when configured and
empty-string domain/path values skipped. -/
theorem claim6_wire_format (key value : String) (max_age : Seconds)
    (path : String) (domain : Option String) (secure httponly : Bool)
    (ss : String)
    (hres : reservedCookieKeys.contains (pyLower key) = false)
    (hleg : _is_legal_key key = true)
    (hss : validSameSite ss = true) :
    _set_cookie_header key value (some max_age) (some path) domain secure
      httponly (some ss)
      = .ok (amendedCookieHeaderFormat key value max_age path domain secure
          httponly ss) := by
  have hss' : ss ≠ "" := by
    intro hE
    rw [hE] at hss
    exact absurd hss (by decide)
  have hres2 : ¬ (pyLower key ∈ reservedCookieKeys) := by
    simpa using hres
  rcases domain with _ | d
  · cases secure <;> cases httponly <;> by_cases hp : path = "" <;>
      simp [_set_cookie_header, hres2, hleg, hss, hss', hp, morselAttrs,
        _semispacejoin, amendedCookieHeaderFormat, String.append_assoc,
        String.append_empty, str_empty_append] <;>
      rfl
  · by_cases hd : d = "" <;> cases secure <;> cases httponly <;>
      by_cases hp : path = "" <;>
      simp [_set_cookie_header, hres2, hleg, hss, hss', hp, hd, morselAttrs,
        _semispacejoin, amendedCookieHeaderFormat, String.append_assoc,
        String.append_empty, str_empty_append] <;>
      rfl

/-- C6 witness: the amended format at a configuration exercising Domain and
Secure, with a mixed-case same-site value rendered verbatim. -/
theorem claim6_wire_format_witness :
    _set_cookie_header "sid" "tok" (some 60) (some "/app")
      (some "example.com") true false (some "Strict")
      = .ok (amendedCookieHeaderFormat "sid" "tok" 60 "/app"
          (some "example.com") true false "Strict") :=
  claim6_wire_format "sid" "tok" 60 "/app" (some "example.com") true false
    "Strict" rfl rfl rfl
